import Mathlib

/-!
# Verification of the passman_cli vault engine

Shallow embedding of the parts of the `passman_cli` repository that the
claims under study refer to: the AEAD encryption wrapper
(`src/crypto/encryption.rs`), the password hasher / key-derivation
functions (`src/crypto/password.rs`), the data model
(`src/database/models.rs`), the schema migrator
(`src/database/migrations.rs`) and the SQLite-backed repository
(`src/database/repository.rs`).

Bytes are modelled as natural numbers (`u8` values live below 256; the
properties proved here hold for the byte range), byte strings as
`List Nat`, SQL tables as Lean lists in rowid (insertion) order, and the
effectful Rust functions as pure Lean functions taking the random draws
(nonce, salt, uuid) and the clock reading as explicit arguments.
External library primitives (the ChaCha20-Poly1305 cipher and the Argon2
hash, which are not part of this repository) are modelled from the spec,
as concrete executable functions exposing exactly the interface and
functional contract the spec ascribes to them.
-/

namespace Passman

/-- Application error type, from `src/error.rs`.  The payloads of the
underlying-library variants are collapsed to their display strings. -/
inductive Error where
  | Database (msg : String)
  | Crypto (msg : String)
  | Config (msg : String)
  | IoErr (msg : String)
  | Serialization (msg : String)
  | InvalidInput (msg : String)
  | Authentication (msg : String)
  | EntryNotFound (what : String)
  | Clipboard (msg : String)
  | PasswordGeneration (msg : String)
  | VaultNotInitialized
  | VaultAlreadyExists
deriving DecidableEq, Repr

/-- `Result<T>` from `src/error.rs`. -/
abbrev RustResult (α : Type) := Except Error α

/-! ## The ChaCha20-Poly1305 AEAD primitive (external crate)

Modelled from the spec: the spec (§4.1, glossary) requires an AEAD
scheme: deterministic given (key, nonce), ciphertext carries an
authentication tag, decryption recovers the plaintext exactly when the
tag authenticates, and the sealed layout is `ciphertext-with-tag`
(16-byte tag, as in ChaCha20-Poly1305).  The functions below are a
concrete executable stand-in with that contract: a keystream XOR cipher
plus a tag computed over (key, nonce, ciphertext). -/

/-- Modelled from the spec: byte `i` of the keystream the cipher derives
from (key, nonce); a concrete mixing function standing in for the
ChaCha20 block function. -/
def mixByte (key nonce : List Nat) (i : Nat) : Nat :=
  ((key.foldl (fun a b => a * 31 + b + 3) 7) * 131
    + (nonce.foldl (fun a b => a * 37 + b + 5) 11) * 17 + i * 1009) % 256

/-- Modelled from the spec: the keystream of length `len` for (key, nonce). -/
def keystream (key nonce : List Nat) (len : Nat) : List Nat :=
  (List.range len).map (fun i => mixByte key nonce i)

/-- Modelled from the spec: the 16-byte Poly1305-style authentication tag
over (key, nonce, ciphertext). -/
def polyTag (key nonce ct : List Nat) : List Nat :=
  (List.range 16).map
    (fun i => (ct.foldl (fun a b => a * 257 + b + 1) (mixByte key nonce (4096 + i))) % 256)

/-- Modelled from the spec: the AEAD seal operation of the cipher crate:
XOR the plaintext with the keystream and append the authentication tag. -/
def chachaSeal (key nonce pt : List Nat) : List Nat :=
  let ct := List.zipWith Nat.xor pt (keystream key nonce pt.length)
  ct ++ polyTag key nonce ct

/-- Modelled from the spec: the AEAD open operation of the cipher crate:
split the tag off, check it, and XOR the keystream back; `none` is an
authentication failure (tampered ciphertext, wrong key, wrong nonce, or
input shorter than the tag). -/
def chachaOpen (key nonce data : List Nat) : Option (List Nat) :=
  if data.length < 16 then none
  else
    let ct := data.take (data.length - 16)
    let tag := data.drop (data.length - 16)
    if tag = polyTag key nonce ct then
      some (List.zipWith Nat.xor ct (keystream key nonce ct.length))
    else none

/-! ## `EncryptionManager` (`src/crypto/encryption.rs`)

The fresh random nonce drawn by `encrypt` from `OsRng`
(`ChaCha20Poly1305::generate_nonce`, always 12 bytes) is passed as an
explicit argument. -/

/-- `EncryptionManager::encrypt` (`src/crypto/encryption.rs:23-41`):
reject keys that are not 32 bytes, seal the plaintext under the fresh
nonce, and prepend the nonce to the cipher output. -/
def encrypt (key nonce plaintext : List Nat) : RustResult (List Nat) :=
  if key.length ≠ 32 then .error (.Crypto "Key must be 32 bytes")
  else .ok (nonce ++ chachaSeal key nonce plaintext)

/-- `EncryptionManager::decrypt` (`src/crypto/encryption.rs:44-65`):
reject keys that are not 32 bytes and inputs shorter than the 12-byte
nonce, split the nonce off, and open the remainder. -/
def decrypt (key sealed : List Nat) : RustResult (List Nat) :=
  if key.length ≠ 32 then .error (.Crypto "Key must be 32 bytes")
  else if sealed.length < 12 then .error (.Crypto "Ciphertext too short")
  else
    match chachaOpen key (sealed.take 12) (sealed.drop 12) with
    | some pt => .ok pt
    | none => .error (.Crypto "Decryption failed")

/-! ### AEAD helper lemmas -/

theorem keystream_length (key nonce : List Nat) (len : Nat) :
    (keystream key nonce len).length = len := by
  simp [keystream]

theorem zipWith_xor_cancel :
    ∀ (pt ks : List Nat),
      List.zipWith Nat.xor (List.zipWith Nat.xor pt ks) ks = pt.take ks.length
  | [], ks => by simp
  | p :: pt, [] => by simp
  | p :: pt, k :: ks => by
    have h : Nat.xor (Nat.xor p k) k = p := Nat.xor_cancel_right k p
    simp [List.zipWith, zipWith_xor_cancel pt ks, h]

theorem polyTag_length (key nonce ct : List Nat) :
    (polyTag key nonce ct).length = 16 := by
  simp [polyTag]

/-- Opening a sealed payload with the sealing key and nonce recovers the
plaintext. -/
theorem chachaOpen_chachaSeal (key nonce pt : List Nat) :
    chachaOpen key nonce (chachaSeal key nonce pt) = some pt := by
  have hct : (List.zipWith Nat.xor pt (keystream key nonce pt.length)).length = pt.length := by
    simp [keystream_length]
  simp only [chachaSeal, chachaOpen, List.length_append, polyTag_length, hct]
  have hlen : ¬ pt.length + 16 < 16 := by omega
  rw [if_neg hlen]
  have hsub : pt.length + 16 - 16 = pt.length := by omega
  rw [hsub, List.take_left' hct, List.drop_left' hct, if_pos rfl, hct,
    zipWith_xor_cancel, keystream_length, List.take_length]

/-! ### Claims C1 and C2 -/

/-- C1: for every 32-byte key `k` and every byte string `p`,
`decrypt(k, encrypt(k, p))` succeeds and returns `p` — the AEAD
round-trip over the nonce-prepended sealed format (the fresh 12-byte
nonce drawn inside `encrypt` appears as the explicit argument `nonce`). -/
theorem C1_encrypt_decrypt_roundtrip (key nonce pt : List Nat)
    (hk : key.length = 32) (hn : nonce.length = 12) :
    ∃ sealed, encrypt key nonce pt = .ok sealed ∧ decrypt key sealed = .ok pt := by
  refine ⟨nonce ++ chachaSeal key nonce pt, ?_, ?_⟩
  · simp [encrypt, hk]
  · have hlen : (nonce ++ chachaSeal key nonce pt).length = 12 + (pt.length + 16) := by
      simp [chachaSeal, List.length_append, polyTag_length, keystream_length, hn]
    have h12 : ¬ (nonce ++ chachaSeal key nonce pt).length < 12 := by omega
    simp only [decrypt, hk, ne_eq, not_true_eq_false, if_false, ite_not, h12, if_neg]
    rw [List.take_left' hn, List.drop_left' hn, chachaOpen_chachaSeal]

/-- Closed witness for C1 at a concrete key, nonce and plaintext. -/
theorem C1_encrypt_decrypt_roundtrip_witness :
    ∃ sealed, encrypt (List.replicate 32 7) (List.replicate 12 3) [10, 20, 30] = .ok sealed ∧
      decrypt (List.replicate 32 7) sealed = .ok [10, 20, 30] :=
  C1_encrypt_decrypt_roundtrip (List.replicate 32 7) (List.replicate 12 3) [10, 20, 30]
    (by simp) (by simp)

/-- C2: `decrypt(key, sealed)` returns a `CryptoError` exactly when the
key is not 32 bytes, or `sealed` is shorter than the 12-byte nonce, or
authentication of the ciphertext fails (the AEAD open of the remainder
under the recovered nonce returns nothing); dually it succeeds exactly
otherwise, so every failure is a `CryptoError`.  `encrypt(key, nonce, p)`
fails — again with a `CryptoError` — exactly when the key is not 32
bytes. -/
theorem C2_error_conditions :
    (∀ key sealed : List Nat,
        (∃ msg, decrypt key sealed = .error (.Crypto msg)) ↔
          (key.length ≠ 32 ∨ sealed.length < 12 ∨
            chachaOpen key (sealed.take 12) (sealed.drop 12) = none))
    ∧ (∀ key sealed : List Nat,
        (∃ pt, decrypt key sealed = .ok pt) ↔
          ¬ (key.length ≠ 32 ∨ sealed.length < 12 ∨
              chachaOpen key (sealed.take 12) (sealed.drop 12) = none))
    ∧ (∀ key nonce pt : List Nat,
        (∃ msg, encrypt key nonce pt = .error (.Crypto msg)) ↔ key.length ≠ 32)
    ∧ (∀ key nonce pt : List Nat,
        (∃ ct, encrypt key nonce pt = .ok ct) ↔ key.length = 32) := by
  refine ⟨fun key sealed => ?_, fun key sealed => ?_, fun key nonce pt => ?_,
    fun key nonce pt => ?_⟩
  · unfold decrypt
    by_cases hk : key.length = 32
    · by_cases hs : sealed.length < 12
      · simp [hk, hs]
      · cases hopen : chachaOpen key (sealed.take 12) (sealed.drop 12) with
        | some pt => simp [hk, hs, hopen]
        | none => simp [hk, hs, hopen]
    · simp [hk]
  · unfold decrypt
    by_cases hk : key.length = 32
    · by_cases hs : sealed.length < 12
      · simp [hk, hs]
      · cases hopen : chachaOpen key (sealed.take 12) (sealed.drop 12) with
        | some pt => simp [hk, hs, hopen]
        | none => simp [hk, hs, hopen]
    · simp [hk]
  · unfold encrypt
    by_cases hk : key.length = 32 <;> simp [hk]
  · unfold encrypt
    by_cases hk : key.length = 32 <;> simp [hk]

/-! ## The Argon2 password hash (external crate)

Modelled from the spec: the spec (§4.2) requires a memory-hard hash that
is deterministic over (password, salt) and whose encoded output embeds
its own salt and parameters; `verify` re-runs the hash on the candidate
password with the embedded salt and compares digests.  `argon2Digest`
below is a concrete executable stand-in for the digest function, and
`EncodedHash` for the PHC-encoded hash string, whose parse
(`PasswordHash::new` in the crate) fails exactly on the malformed
alternative. -/

/-- Modelled from the spec: the Argon2 digest of (password, salt) — a
deterministic 32-byte output. -/
def argon2Digest (password : String) (salt : List Nat) : List Nat :=
  (List.range 32).map
    (fun i =>
      (password.toList.foldl (fun a c => a * 53 + c.toNat + 9)
        (salt.foldl (fun a b => a * 41 + b + 1) (13 + i * 101))) % 256)

/-- Modelled from the spec: a PHC-encoded password-hash string, either
well formed (embedding its salt and digest) or malformed (rejected by
the parse step of `verify_password`). -/
inductive EncodedHash where
  | wellFormed (salt : List Nat) (digest : List Nat)
  | malformed (raw : String)
deriving DecidableEq, Repr

/-! ## `PasswordManager` (`src/crypto/password.rs`)

The fresh salt `hash_password` draws from `OsRng`
(`SaltString::generate`) is passed as an explicit argument. -/

/-- `PasswordManager::hash_password` (`src/crypto/password.rs:23-31`):
hash the password under a freshly drawn salt and return the encoded hash
together with the salt bytes. -/
def hash_password (password : String) (saltDraw : List Nat) :
    EncodedHash × List Nat :=
  (.wellFormed saltDraw (argon2Digest password saltDraw), saltDraw)

/-- `PasswordManager::verify_password` (`src/crypto/password.rs:34-43`):
parse the encoded hash (a `Crypto` error on a malformed encoding), then
re-hash the candidate password with the embedded salt; a digest mismatch
is the value `false`, not an error. -/
def verify_password (password : String) (hash : EncodedHash) :
    RustResult Bool :=
  match hash with
  | .malformed e => .error (.Crypto ("Invalid hash format: " ++ e))
  | .wellFormed salt digest => .ok (argon2Digest password salt == digest)

/-- Maximal salt length accepted by `SaltString::encode_b64` in the
password-hash crate: 64 base64 characters, i.e. 48 raw bytes. -/
def saltMaxLen : Nat := 48

/-- `PasswordManager::derive_key` (`src/crypto/password.rs:54-72`):
b64-encode the salt (a `Crypto` error when it exceeds the encodable
length), hash the password under it, and copy
`min 32 (digest length)` digest bytes over a 32-byte zero buffer. -/
def derive_key (password : String) (salt : List Nat) :
    RustResult (List Nat) :=
  if saltMaxLen < salt.length then .error (.Crypto "Invalid salt: value too long")
  else
    let hashBytes := argon2Digest password salt
    let copyLen := min 32 hashBytes.length
    .ok (hashBytes.take copyLen ++ List.replicate (32 - copyLen) 0)

/-! ### Claims C7 and C8 -/

/-- C7: verifying a password against its own fresh hash yields
`Ok true`; against any well-formed encoded hash a mismatch is reported
as the value `Ok false` (never an error), and `verify_password` errors
exactly on a malformed encoded hash. -/
theorem C7_verify_password_contract :
    (∀ (password : String) (saltDraw : List Nat),
        verify_password password (hash_password password saltDraw).1 = .ok true)
    ∧ (∀ (password : String) (salt digest : List Nat),
        verify_password password (.wellFormed salt digest) = .ok false ↔
          argon2Digest password salt ≠ digest)
    ∧ (∀ (password : String) (hash : EncodedHash),
        (∃ e, verify_password password hash = .error e) ↔
          ∃ raw, hash = .malformed raw) := by
  refine ⟨fun password saltDraw => ?_, fun password salt digest => ?_,
    fun password hash => ?_⟩
  · simp [verify_password, hash_password]
  · simp [verify_password]
  · cases hash with
    | wellFormed salt digest => simp [verify_password]
    | malformed raw => simp [verify_password]

/-- C8: `derive_key` is deterministic — two calls on the same
(password, salt) can only return the same result — and every key it
returns is exactly 32 bytes long. -/
theorem C8_derive_key_deterministic_32_bytes :
    (∀ (password : String) (salt : List Nat) (r₁ r₂ : RustResult (List Nat)),
        derive_key password salt = r₁ → derive_key password salt = r₂ → r₁ = r₂)
    ∧ (∀ (password : String) (salt key : List Nat),
        derive_key password salt = .ok key → key.length = 32) := by
  constructor
  · intro password salt r₁ r₂ h₁ h₂
    rw [← h₁, ← h₂]
  · intro password salt key h
    unfold derive_key at h
    by_cases hs : saltMaxLen < salt.length
    · simp [hs] at h
    · simp only [hs, if_false] at h
      have hkey := Except.ok.inj h
      have hlen : (argon2Digest password salt).length = 32 := by
        simp [argon2Digest]
      rw [← hkey]
      simp [List.length_append, List.length_take, List.length_replicate, hlen]

/-- Closed witness for C8 at a concrete password and salt. -/
theorem C8_derive_key_witness :
    derive_key "master" [1, 2, 3, 4] = derive_key "master" [1, 2, 3, 4]
      ∧ ∃ key, derive_key "master" [1, 2, 3, 4] = .ok key ∧ key.length = 32 := by
  refine ⟨C8_derive_key_deterministic_32_bytes.1 "master" [1, 2, 3, 4] _ _ rfl rfl, ?_⟩
  cases hk : derive_key "master" [1, 2, 3, 4] with
  | error e =>
    have : (derive_key "master" [1, 2, 3, 4]).isOk = true := by decide
    rw [hk] at this
    exact absurd this (by simp [Except.isOk, Except.toBool])
  | ok key =>
    exact ⟨key, rfl,
      C8_derive_key_deterministic_32_bytes.2 "master" [1, 2, 3, 4] key hk⟩

/-! ## The vault data model (`src/database/models.rs`)

Timestamps are the RFC-3339 strings the repository stores; `Utc::now()`
and `Uuid::new_v4()` are passed as explicit arguments (`now`, `id`). -/

/-- `SecureString` (`src/database/models.rs:29-52`): a string wrapper
(the zero-on-drop behaviour is a memory property outside the value
model). -/
structure SecureString where
  value : String
deriving DecidableEq, Repr

/-- `PasswordEntry` (`src/database/models.rs:7-26`). -/
structure PasswordEntry where
  id : String
  title : String
  username : String
  password : SecureString
  url : Option String
  notes : Option String
  created_at : String
  updated_at : String
deriving DecidableEq, Repr

/-- `PasswordEntry::new` (`src/database/models.rs:88-108`): builds the
entry with a fresh id, both timestamps stamped to `now`, and the given
fields — unconditionally, with no validation of any field. -/
def PasswordEntry.new (id now : String) (title username : String)
    (password : SecureString) (url notes : Option String) : PasswordEntry :=
  { id := id
    title := title
    username := username
    password := password
    url := url
    notes := notes
    created_at := now
    updated_at := now }

/-- `VaultMetadata` (`src/database/models.rs:74-86`). -/
structure VaultMetadata where
  created_at : String
  last_access : String
  schema_version : Nat
  salt : List Nat
  password_hash : List Nat
deriving DecidableEq, Repr

/-! ### Claim C5 -/

/-- C5 counterexample: `PasswordEntry::new` called with the empty title
does produce an entry — one whose title is empty — so construction is
not rejected. -/
theorem C5_counterexample :
    ∃ entry : PasswordEntry,
      entry = PasswordEntry.new "3f2a" "2024-01-01T00:00:00Z" "" "alice"
          ⟨"pw"⟩ none none
        ∧ entry.title = "" :=
  ⟨PasswordEntry.new "3f2a" "2024-01-01T00:00:00Z" "" "alice" ⟨"pw"⟩ none none,
    rfl, rfl⟩

/-- C5 amended: `PasswordEntry::new` performs no title validation: for
every title argument — the empty string included — it returns an entry
whose title is exactly that argument (and whose two timestamps are both
stamped to the construction time). -/
theorem C5_new_does_not_validate_title (id now title username : String)
    (password : SecureString) (url notes : Option String) :
    (PasswordEntry.new id now title username password url notes).title = title
      ∧ (PasswordEntry.new id now title username password url notes).created_at = now
      ∧ (PasswordEntry.new id now title username password url notes).updated_at = now :=
  ⟨rfl, rfl, rfl⟩

/-! ## The schema migrator (`src/database/migrations.rs`)

The migration ledger is the `migrations` table, a list of rows in
insertion order.  The `sql` schema text of a migration is abstracted:
the claims under study concern which migrations are applied and what the
ledger records, not the shape of the created tables.  `datetime('now')`
is the explicit argument `now`. -/

/-- `Migration` (`src/database/migrations.rs:5-9`), minus the abstracted
`sql` field. -/
structure Migration where
  version : Nat
  description : String
deriving DecidableEq, Repr

/-- `MIGRATIONS` (`src/database/migrations.rs:12-50`): the declared
migrations — a single entry, version 1. -/
def MIGRATIONS : List Migration :=
  [{ version := 1, description := "Initial schema" }]

/-- A row of the `migrations` ledger table. -/
structure MigrationRow where
  version : Nat
  description : String
  applied_at : String
deriving DecidableEq, Repr

/-- The `migrations` ledger table (created up front by `migrate`), rows
in insertion order. -/
structure MigrationLedger where
  rows : List MigrationRow
deriving DecidableEq, Repr

/-- `MigrationRunner::get_current_version`
(`src/database/migrations.rs:88-99`): `SELECT MAX(version)` over the
ledger, falling back to 0 on an empty table (SQL `NULL`). -/
def get_current_version (ledger : MigrationLedger) : Nat :=
  ledger.rows.foldl (fun a r => max a r.version) 0

/-- `MigrationRunner::apply_migration`
(`src/database/migrations.rs:101-118`): run the schema change and append
the ledger row, atomically. -/
def apply_migration (ledger : MigrationLedger) (m : Migration) (now : String) :
    MigrationLedger :=
  ⟨ledger.rows ++ [⟨m.version, m.description, now⟩]⟩

/-- The loop body of `MigrationRunner::migrate`
(`src/database/migrations.rs:63-86`) over an arbitrary declared list:
read the applied version once, then apply every declared migration whose
version is strictly greater. -/
def migrateWith (migs : List Migration) (ledger : MigrationLedger) (now : String) :
    MigrationLedger :=
  migs.foldl
    (fun acc m =>
      if get_current_version ledger < m.version then apply_migration acc m now
      else acc)
    ledger

/-- `MigrationRunner::migrate` (`src/database/migrations.rs:63-86`). -/
def migrate (ledger : MigrationLedger) (now : String) : MigrationLedger :=
  migrateWith MIGRATIONS ledger now

/-! ### Claim C6 -/

theorem migrateWith_rows (c : Nat) (now : String) :
    ∀ (migs : List Migration) (acc : MigrationLedger),
      (migs.foldl
          (fun acc m =>
            if c < m.version then apply_migration acc m now else acc)
          acc).rows
        = acc.rows
          ++ (migs.filter (fun m => c < m.version)).map
              (fun m => (⟨m.version, m.description, now⟩ : MigrationRow))
  | [], acc => by simp
  | m :: ms, acc => by
    by_cases h : c < m.version
    · rw [List.foldl_cons, if_pos h,
        migrateWith_rows c now ms (apply_migration acc m now),
        List.filter_cons_of_pos (by simpa using h), List.map_cons]
      simp [apply_migration, List.append_assoc]
    · rw [List.foldl_cons, if_neg h, migrateWith_rows c now ms acc,
        List.filter_cons_of_neg (by simpa using h)]

theorem get_current_version_apply (ledger : MigrationLedger) (m : Migration)
    (now : String) :
    get_current_version (apply_migration ledger m now)
      = max (get_current_version ledger) m.version := by
  simp [get_current_version, apply_migration, List.foldl_append]

/-- C6: the migrator appends ledger rows for exactly the declared
migrations whose version exceeds the maximum applied version (which is 0
on an empty ledger), and a second run on the resulting store applies no
migration and leaves the ledger unchanged. -/
theorem C6_migrate_pending_only_and_idempotent :
    (∀ (ledger : MigrationLedger) (now : String),
        (migrate ledger now).rows
          = ledger.rows
            ++ (MIGRATIONS.filter
                  (fun m => get_current_version ledger < m.version)).map
                (fun m => (⟨m.version, m.description, now⟩ : MigrationRow)))
    ∧ get_current_version ⟨[]⟩ = 0
    ∧ (∀ (ledger : MigrationLedger) (now now₂ : String),
        migrate (migrate ledger now) now₂ = migrate ledger now) := by
  refine ⟨fun ledger now => migrateWith_rows _ now MIGRATIONS ledger, rfl,
    fun ledger now now₂ => ?_⟩
  have hone : ∀ (lg : MigrationLedger) (n : String),
      migrate lg n
        = if get_current_version lg < 1
            then apply_migration lg ⟨1, "Initial schema"⟩ n else lg :=
    fun lg n => rfl
  by_cases h : get_current_version ledger < 1
  · have h1 : migrate ledger now = apply_migration ledger ⟨1, "Initial schema"⟩ now := by
      rw [hone, if_pos h]
    have h2 : ¬ get_current_version
        (apply_migration ledger ⟨1, "Initial schema"⟩ now) < 1 := by
      rw [get_current_version_apply]
      show ¬ max (get_current_version ledger) 1 < 1
      omega
    rw [h1, hone, if_neg h2]
  · have h1 : migrate ledger now = ledger := by
      rw [hone, if_neg h]
    rw [h1, hone, if_neg h]

/-! ## The vault repository (`src/database/repository.rs`)

The SQLite store is modelled by its two data tables: the singleton
`vault_metadata` row (its `id` column is fixed at 1 by the schema, so an
`Option` suffices) and the `password_entries` table as a list of rows in
rowid (insertion) order.  `query_row` on a query without `ORDER BY`
returns the first row of the scan, i.e. the first matching row in that
list order; `Connection::execute` returns the number of affected rows. -/

/-- A row of the `password_entries` table. -/
structure EntryRow where
  id : String
  title : String
  username : String
  encrypted_password : List Nat
  url : Option String
  notes : Option String
  created_at : String
  updated_at : String
deriving DecidableEq, Repr

/-- The two data tables of the vault database. -/
structure VaultStore where
  metadata : Option VaultMetadata
  entries : List EntryRow
deriving DecidableEq, Repr

/-- `PasswordRepository::initialize_vault`
(`src/database/repository.rs:31-41`): a bare
`INSERT INTO vault_metadata` with `id = 1` and `schema_version = 1`;
when the singleton row already exists, SQLite rejects the insert with a
primary-key constraint violation, which surfaces as `Error::Database`
via the `From<rusqlite::Error>` conversion. -/
def initialize_vault (store : VaultStore) (now : String)
    (salt password_hash : List Nat) : RustResult VaultStore :=
  match store.metadata with
  | some _ => .error (.Database "UNIQUE constraint failed: vault_metadata.id")
  | none => .ok { store with metadata := some ⟨now, now, 1, salt, password_hash⟩ }

/-- `PasswordRepository::is_initialized`
(`src/database/repository.rs:44-52`). -/
def is_initialized (store : VaultStore) : Bool :=
  store.metadata.isSome

/-- `PasswordRepository::add_entry` (`src/database/repository.rs:90-108`):
insert the row built from the entry's fields and the ciphertext; a
duplicate primary key is a constraint violation. -/
def add_entry (store : VaultStore) (entry : PasswordEntry)
    (encrypted_password : List Nat) : RustResult VaultStore :=
  if store.entries.any (fun r => r.id == entry.id) then
    .error (.Database "UNIQUE constraint failed: password_entries.id")
  else
    .ok { store with
      entries := store.entries
        ++ [⟨entry.id, entry.title, entry.username, encrypted_password,
              entry.url, entry.notes, entry.created_at, entry.updated_at⟩] }

/-- `PasswordRepository::get_entry_by_title`
(`src/database/repository.rs:125-136`): `query_row` over
`WHERE title = ?1` with no `ORDER BY` — the first matching row of the
scan; no row is `EntryNotFound`. -/
def get_entry_by_title (store : VaultStore) (title : String) :
    RustResult EntryRow :=
  match store.entries.find? (fun r => r.title == title) with
  | some r => .ok r
  | none => .error (.EntryNotFound title)

/-- The row produced by the `UPDATE` of
`PasswordRepository::update_entry`: every column except `id` and
`created_at` is overwritten from the entry and the fresh ciphertext. -/
def updatedRow (r : EntryRow) (entry : PasswordEntry)
    (encrypted_password : List Nat) : EntryRow :=
  { r with
    title := entry.title
    username := entry.username
    encrypted_password := encrypted_password
    url := entry.url
    notes := entry.notes
    updated_at := entry.updated_at }

/-- The SQL effect of `PasswordRepository::update_entry`
(`src/database/repository.rs:172-193`): the updated table and the
affected-row count returned by `Connection::execute`. -/
def exec_update_entry (store : VaultStore) (entry : PasswordEntry)
    (encrypted_password : List Nat) : VaultStore × Nat :=
  ({ store with
      entries := store.entries.map
        (fun r => if r.id == entry.id then updatedRow r entry encrypted_password
          else r) },
   store.entries.countP (fun r => r.id == entry.id))

/-- `PasswordRepository::update_entry`
(`src/database/repository.rs:172-193`): run the `UPDATE`, then report
`EntryNotFound` when it affected no row. -/
def update_entry (store : VaultStore) (entry : PasswordEntry)
    (encrypted_password : List Nat) : RustResult VaultStore :=
  let res := exec_update_entry store entry encrypted_password
  if res.2 = 0 then .error (.EntryNotFound entry.id) else .ok res.1

/-- The SQL effect of `PasswordRepository::delete_entry`
(`src/database/repository.rs:196-207`): `DELETE ... WHERE id = ?1` and
the affected-row count. -/
def exec_delete_entry (store : VaultStore) (id : String) : VaultStore × Nat :=
  ({ store with entries := store.entries.filter (fun r => !(r.id == id)) },
   store.entries.countP (fun r => r.id == id))

/-- `PasswordRepository::delete_entry`
(`src/database/repository.rs:196-207`). -/
def delete_entry (store : VaultStore) (id : String) : RustResult VaultStore :=
  let res := exec_delete_entry store id
  if res.2 = 0 then .error (.EntryNotFound id) else .ok res.1

/-- The SQL effect of `PasswordRepository::delete_entry_by_title`
(`src/database/repository.rs:210-221`): `DELETE ... WHERE title = ?1` —
every row whose title matches — and the affected-row count. -/
def exec_delete_entry_by_title (store : VaultStore) (title : String) :
    VaultStore × Nat :=
  ({ store with entries := store.entries.filter (fun r => !(r.title == title)) },
   store.entries.countP (fun r => r.title == title))

/-- `PasswordRepository::delete_entry_by_title`
(`src/database/repository.rs:210-221`). -/
def delete_entry_by_title (store : VaultStore) (title : String) :
    RustResult VaultStore :=
  let res := exec_delete_entry_by_title store title
  if res.2 = 0 then .error (.EntryNotFound title) else .ok res.1

/-! ### Claim C3 -/

/-- An already-initialized store: the singleton metadata row exists. -/
def initializedStore : VaultStore :=
  { metadata := some ⟨"2024-01-01T00:00:00Z", "2024-01-01T00:00:00Z", 1, [9], [8]⟩
    entries := [] }

/-- C3 counterexample: on a store whose metadata row exists, a second
`initialize_vault` does fail — but with the `Database` constraint
error, not with `VaultAlreadyExists`. -/
theorem C3_counterexample :
    (∃ e, initialize_vault initializedStore "2024-01-02T00:00:00Z"
        [1, 2, 3, 4] [5, 6, 7, 8] = .error e)
      ∧ initialize_vault initializedStore "2024-01-02T00:00:00Z"
          [1, 2, 3, 4] [5, 6, 7, 8]
        ≠ .error Error.VaultAlreadyExists :=
  ⟨⟨Error.Database "UNIQUE constraint failed: vault_metadata.id", rfl⟩,
    by simp [initialize_vault, initializedStore]⟩

/-- C3 amended: for every vault store in which the singleton metadata
row already exists, a second call to `initialize_vault` fails — with the
`Database` primary-key-constraint error the bare `INSERT` produces (the
declared `VaultAlreadyExists` variant is never constructed by the
repository). -/
theorem C3_reinitialize_fails_with_database_error (store : VaultStore)
    (m : VaultMetadata) (now : String) (salt password_hash : List Nat)
    (h : store.metadata = some m) :
    ∃ msg, initialize_vault store now salt password_hash
      = .error (.Database msg) := by
  unfold initialize_vault
  rw [h]
  exact ⟨_, rfl⟩

/-- Closed witness for the amended C3 at a concrete initialized store. -/
theorem C3_reinitialize_fails_witness :
    ∃ msg, initialize_vault initializedStore "2024-01-02T00:00:00Z"
        [1, 2, 3, 4] [5, 6, 7, 8] = .error (.Database msg) :=
  C3_reinitialize_fails_with_database_error initializedStore
    ⟨"2024-01-01T00:00:00Z", "2024-01-01T00:00:00Z", 1, [9], [8]⟩
    "2024-01-02T00:00:00Z" [1, 2, 3, 4] [5, 6, 7, 8] rfl

/-! ### Claim C4

`get_entry_by_title` returns the first matching row in the table's scan
order.  The claim speaks of the first match in title-ascending order;
`sortByTitle` below is a stable insertion sort by title, so "first match
in title-ascending order" is its `find?`.  Both notions agree because a
stable sort keeps equal-titled rows — and all matches have the looked-up
title — in their original relative order. -/

/-- Stable insertion of a row into a title-sorted list: the new row goes
before the first row whose title is not smaller, hence before the rows
of equal title already present. -/
def insertByTitle (e : EntryRow) : List EntryRow → List EntryRow
  | [] => [e]
  | x :: xs => if e.title ≤ x.title then e :: x :: xs else x :: insertByTitle e xs

/-- Stable sort of the entry table by title ascending. -/
def sortByTitle : List EntryRow → List EntryRow
  | [] => []
  | x :: xs => insertByTitle x (sortByTitle xs)

theorem find?_eq_head_filter (p : EntryRow → Bool) :
    ∀ l : List EntryRow, l.find? p = (l.filter p).head?
  | [] => rfl
  | x :: xs => by
    by_cases h : p x
    · rw [List.find?_cons_of_pos _ h, List.filter_cons_of_pos h, List.head?_cons]
    · rw [List.find?_cons_of_neg _ h, List.filter_cons_of_neg h,
        find?_eq_head_filter p xs]

theorem filter_insertByTitle (t : String) (e : EntryRow) :
    ∀ l : List EntryRow,
      (insertByTitle e l).filter (fun r => r.title == t)
        = ((e :: l).filter (fun r => r.title == t))
  | [] => rfl
  | x :: xs => by
    by_cases he : e.title ≤ x.title
    · rw [insertByTitle, if_pos he]
    · rw [insertByTitle, if_neg he]
      by_cases hx : x.title == t
      · have hxt : x.title = t := eq_of_beq hx
        have het : ¬ e.title == t := by
          intro hee
          exact he ((eq_of_beq hee).trans hxt.symm ▸ le_refl x.title)
        simp [List.filter, hx, het, filter_insertByTitle t e xs]
      · simp [List.filter, hx, filter_insertByTitle t e xs]

theorem filter_sortByTitle (t : String) :
    ∀ l : List EntryRow,
      (sortByTitle l).filter (fun r => r.title == t)
        = l.filter (fun r => r.title == t)
  | [] => rfl
  | x :: xs => by
    rw [sortByTitle, filter_insertByTitle t x (sortByTitle xs)]
    simp [List.filter, filter_sortByTitle t xs]

/-- C4: whenever the store holds at least one entry with the looked-up
title (in particular when it holds two or more), `get_entry_by_title`
succeeds and returns exactly the first matching entry of the
title-ascending (stable) ordering of the table — a deterministic first
match. -/
theorem C4_get_by_title_first_in_title_order (store : VaultStore) (t : String)
    (h : 0 < store.entries.countP (fun r => r.title == t)) :
    ∃ e, get_entry_by_title store t = .ok e
      ∧ (sortByTitle store.entries).find? (fun r => r.title == t) = some e := by
  have hex : ∃ r ∈ store.entries, (fun r : EntryRow => r.title == t) r :=
    List.countP_pos_iff.mp h
  have hsome : (store.entries.find? (fun r => r.title == t)).isSome :=
    List.find?_isSome.mpr hex
  cases hfind : store.entries.find? (fun r => r.title == t) with
  | none => rw [hfind] at hsome; simp at hsome
  | some e =>
    refine ⟨e, ?_, ?_⟩
    · unfold get_entry_by_title
      rw [hfind]
    · rw [find?_eq_head_filter, filter_sortByTitle, ← find?_eq_head_filter, hfind]

/-- Concrete store with a duplicated title: two rows titled "github"
(inserted first and second) and one titled "aws". -/
def dupTitleStore : VaultStore :=
  { metadata := none
    entries :=
      [⟨"id-1", "github", "alice", [1], none, none, "t1", "t1"⟩,
       ⟨"id-2", "github", "bob", [2], none, none, "t2", "t2"⟩,
       ⟨"id-3", "aws", "carol", [3], none, none, "t3", "t3"⟩] }

/-- Closed witness for C4 on a store holding two entries titled
"github". -/
theorem C4_get_by_title_witness :
    ∃ e, get_entry_by_title dupTitleStore "github" = .ok e
      ∧ (sortByTitle dupTitleStore.entries).find?
          (fun r => r.title == "github") = some e :=
  C4_get_by_title_first_in_title_order dupTitleStore "github" (by decide)

/-! ### Claims C9 and C10 -/

theorem map_if_eq_self (p : EntryRow → Bool) (f : EntryRow → EntryRow)
    (l : List EntryRow) (h : ∀ a ∈ l, ¬ p a) :
    l.map (fun r => if p r then f r else r) = l := by
  have hcongr : ∀ a ∈ l, (fun r => if p r then f r else r) a = id a := by
    intro a ha
    simp [h a ha]
  rw [List.map_congr_left hcongr, List.map_id]

theorem filter_not_eq_self (p : EntryRow → Bool) (l : List EntryRow)
    (h : ∀ a ∈ l, ¬ p a) :
    l.filter (fun r => !(p r)) = l :=
  List.filter_eq_self.mpr (fun a ha => by simp [h a ha])

/-- C9: each of `update_entry`, `delete_entry` and
`delete_entry_by_title` fails with `EntryNotFound` when no stored row
matches its identifier (resp. title), and in each such failing case the
executed SQL statement leaves the entry table unchanged. -/
theorem C9_not_found_errors_leave_store_unchanged (store : VaultStore) :
    (∀ (entry : PasswordEntry) (encrypted_password : List Nat),
        store.entries.countP (fun r => r.id == entry.id) = 0 →
          update_entry store entry encrypted_password
              = .error (.EntryNotFound entry.id)
            ∧ (exec_update_entry store entry encrypted_password).1 = store)
    ∧ (∀ id : String,
        store.entries.countP (fun r => r.id == id) = 0 →
          delete_entry store id = .error (.EntryNotFound id)
            ∧ (exec_delete_entry store id).1 = store)
    ∧ (∀ title : String,
        store.entries.countP (fun r => r.title == title) = 0 →
          delete_entry_by_title store title = .error (.EntryNotFound title)
            ∧ (exec_delete_entry_by_title store title).1 = store) := by
  refine ⟨fun entry encrypted_password h => ?_, fun id h => ?_, fun title h => ?_⟩
  · have hall := List.countP_eq_zero.mp h
    refine ⟨by simp [update_entry, exec_update_entry, h], ?_⟩
    simp only [exec_update_entry]
    rw [map_if_eq_self _ _ _ hall]
  · have hall := List.countP_eq_zero.mp h
    refine ⟨by simp [delete_entry, exec_delete_entry, h], ?_⟩
    simp only [exec_delete_entry]
    rw [filter_not_eq_self _ _ hall]
  · have hall := List.countP_eq_zero.mp h
    refine ⟨by simp [delete_entry_by_title, exec_delete_entry_by_title, h], ?_⟩
    simp only [exec_delete_entry_by_title]
    rw [filter_not_eq_self _ _ hall]

/-- Closed witness for C9: on the concrete store with three entries,
none of which matches id "id-9" or title "missing". -/
theorem C9_not_found_witness :
    (update_entry dupTitleStore
          (PasswordEntry.new "id-9" "t9" "x" "u" ⟨"p"⟩ none none) [7]
        = .error (.EntryNotFound "id-9")
      ∧ (exec_update_entry dupTitleStore
            (PasswordEntry.new "id-9" "t9" "x" "u" ⟨"p"⟩ none none) [7]).1
          = dupTitleStore)
    ∧ (delete_entry dupTitleStore "id-9" = .error (.EntryNotFound "id-9")
        ∧ (exec_delete_entry dupTitleStore "id-9").1 = dupTitleStore)
    ∧ (delete_entry_by_title dupTitleStore "missing"
          = .error (.EntryNotFound "missing")
        ∧ (exec_delete_entry_by_title dupTitleStore "missing").1 = dupTitleStore) :=
  ⟨(C9_not_found_errors_leave_store_unchanged dupTitleStore).1
      (PasswordEntry.new "id-9" "t9" "x" "u" ⟨"p"⟩ none none) [7] (by decide),
    (C9_not_found_errors_leave_store_unchanged dupTitleStore).2.1 "id-9" (by decide),
    (C9_not_found_errors_leave_store_unchanged dupTitleStore).2.2 "missing"
      (by decide)⟩

/-- C10: when the store holds at least one entry with title `t`,
`delete_entry_by_title t` succeeds, and the resulting store holds no
entry with title `t` — the `DELETE` removes every match, not only the
first. -/
theorem C10_delete_by_title_removes_all (store : VaultStore) (t : String)
    (h : 0 < store.entries.countP (fun r => r.title == t)) :
    ∃ st, delete_entry_by_title store t = .ok st
      ∧ st.entries = store.entries.filter (fun r => !(r.title == t))
      ∧ ∀ r ∈ st.entries, r.title ≠ t := by
  have hne : store.entries.countP (fun r => r.title == t) ≠ 0 := by omega
  refine ⟨(exec_delete_entry_by_title store t).1, ?_, rfl, ?_⟩
  · simp [delete_entry_by_title, exec_delete_entry_by_title, hne]
  · intro r hr
    have hmem := List.of_mem_filter hr
    intro hrt
    rw [hrt] at hmem
    simp at hmem

/-- Closed witness for C10: deleting title "github" from the store with
two entries so titled removes both. -/
theorem C10_delete_by_title_witness :
    ∃ st, delete_entry_by_title dupTitleStore "github" = .ok st
      ∧ st.entries
          = dupTitleStore.entries.filter (fun r => !(r.title == "github"))
      ∧ ∀ r ∈ st.entries, r.title ≠ "github" :=
  C10_delete_by_title_removes_all dupTitleStore "github" (by decide)

end Passman
